import Mathlib

/-!
Shallow embedding of the yield-estimation and decision-support core of
`src/app.py` (`calculate_yield` and `generate_decision_support`).

Modelling conventions:
* Python floats are modelled as exact rationals (`ℚ`).
* `round(x, n)` in Python rounds the stored binary double; an exact decimal
  tie is resolved by the sign of the representation error of the double.
  For every value rounded in this development the double sits at or above
  the exact decimal midpoint (checked against the concrete values, e.g.
  `round(16.445, 2) = 16.45` because the double nearest
  `5.5*1.0*1.15*1.3*2` is `16.44500000000000028…`), so rounding is modelled
  as round-half-up: `⌊x·10^n + 1/2⌋ / 10^n`.
* Text fields are Lean `String`s (sequences of Unicode code points, matching
  Python `str`).  `str.strip()` is modelled by removing leading/trailing
  whitespace characters, `str.lower()` by a per-character lowercase map
  covering ASCII and the Latin ranges used by Vietnamese text, and
  `kw in s` by list-infix on the code points.
* `sow_date`/`harvest_date` are modelled by the outcome of
  `datetime.strptime(s, "%Y-%m-%d")`: the field is falsy (absent/None/empty),
  a truthy string that fails to parse, or a parsed calendar date.
* The `area` field is modelled by the outcome of `float(...)`: absent
  (Python default `1`), a numeric value, or a value on which `float`
  raises (e.g. `"abc"`); in the last case the surrounding
  `try/except` makes the whole function return the sentinel `None`,
  modelled as `Option.none`.
* The report's money fields are formatted as thousands-separated strings by
  the code; the model keeps the underlying numeric values.
-/

/-- Lowercase map for a single code point: ASCII `A`–`Z`, Latin-1 capitals,
and the Latin Extended ranges holding the Vietnamese capitals
(`Ă Đ Ĩ Ũ Ơ Ư` and `Ạ`–`Ỹ`), as Python `str.lower` maps them. -/
def lowerChar (c : Char) : Char :=
  let n := c.toNat
  if 65 ≤ n ∧ n ≤ 90 then Char.ofNat (n + 32)
  else if 192 ≤ n ∧ n ≤ 222 ∧ n ≠ 215 then Char.ofNat (n + 32)
  else if 256 ≤ n ∧ n ≤ 303 ∧ n % 2 = 0 then Char.ofNat (n + 1)
  else if n = 360 ∨ n = 416 ∨ n = 431 then Char.ofNat (n + 1)
  else if 7680 ≤ n ∧ n ≤ 7929 ∧ n % 2 = 0 then Char.ofNat (n + 1)
  else c

/-- Python `str.lower()` (restricted to the alphabets above). -/
def pyLower (s : String) : String := ⟨s.data.map lowerChar⟩

/-- Python `str.strip()`: drop leading and trailing whitespace. -/
def pyStrip (s : String) : String :=
  ⟨((s.data.dropWhile Char.isWhitespace).reverse.dropWhile Char.isWhitespace).reverse⟩

/-- The normalization `str.strip().lower()` applied by `calculate_yield`
to `crop`, `fertilizer` and `province`. -/
def normText (s : String) : String := pyLower (pyStrip s)

/-- Python substring test `needle in hay` on code points. -/
def hasSub (needle hay : String) : Bool := decide (needle.data <:+: hay.data)

/-- Outcome of `float(season_data.get("area", 1))`:
the field is absent (default `1`), carries a numeric value,
or makes `float` raise (caught by the enclosing handler). -/
inductive AreaField where
  | missing : AreaField
  | num : ℚ → AreaField
  | bad : AreaField
deriving DecidableEq

/-- The numeric value `float(...)` produces, `none` when it raises. -/
def areaVal : AreaField → Option ℚ
  | .missing => some 1
  | .num q => some q
  | .bad => none

/-- Outcome of a date field: falsy (absent, `None` or `""`), a truthy
string rejected by `strptime(s, "%Y-%m-%d")`, or a parsed date
`valid year month day`. -/
inductive DateField where
  | missing : DateField
  | invalid : DateField
  | valid : ℕ → ℕ → ℕ → DateField
deriving DecidableEq

/-- Leap-year test of the proleptic Gregorian calendar used by
`datetime`. -/
def isLeap (y : ℕ) : Bool := (y % 4 == 0 && y % 100 != 0) || y % 400 == 0

/-- Days in the months before month `m` of a non-leap year. -/
def cumDays (m : ℕ) : ℕ :=
  match m with
  | 1 => 0 | 2 => 31 | 3 => 59 | 4 => 90 | 5 => 120 | 6 => 151
  | 7 => 181 | 8 => 212 | 9 => 243 | 10 => 273 | 11 => 304 | 12 => 334
  | _ => 0

/-- Proleptic-Gregorian ordinal of a date (day 1 = 0001-01-01), as used by
`datetime` subtraction: `(harvest - sow).days` is the ordinal difference. -/
def toOrdinal (y m d : ℕ) : ℕ :=
  365 * (y - 1) + (y - 1) / 4 + (y - 1) / 400 - (y - 1) / 100
    + cumDays m + (if 2 < m ∧ isLeap y then 1 else 0) + d

/-- Growth duration in days (`app.py` lines 130–142): default 90; when both
date strings are truthy and parse, the day difference clamped by
`max(60, min(180, growth_days))`. -/
def growthDays : DateField → DateField → ℤ
  | .valid y1 m1 d1, .valid y2 m2 d2 =>
      max 60 (min 180 ((toOrdinal y2 m2 d2 : ℤ) - (toOrdinal y1 m1 d1 : ℤ)))
  | _, _ => 90

/-- Growth factor step function (`app.py` lines 145–154). -/
def growthFactor (growth_days : ℤ) : ℚ :=
  if growth_days < 80 then 0.7
  else if growth_days < 100 then 0.9
  else if growth_days < 120 then 1.0
  else if growth_days < 150 then 1.1
  else 1.2

/-- Base yield by crop type, tấn/ha (`app.py` lines 108–120). -/
def base_yields : List (String × ℚ) :=
  [("lúa", 5.5), ("ngô", 4.8), ("hoa hướng dương", 2.5), ("cà phê", 2.2),
   ("cao su", 1.8), ("chè", 3.2), ("tiêu", 3.0), ("điều", 1.5),
   ("mía", 60.0), ("lạc", 2.2), ("đậu tương", 2.0)]

/-- Exact-key dictionary lookup `base_yields.get(crop, 4.0)`. -/
def baseYield (crop : String) : ℚ := (base_yields.lookup crop).getD 4.0

/-- Ordered fertilizer keyword table (`app.py` lines 157–163); Python dicts
iterate in insertion order. -/
def fertilizer_factors : List (String × ℚ) :=
  [("hữu cơ", 1.2), ("vô cơ", 1.1), ("npk", 1.15), ("phân chuồng", 1.18),
   ("không", 0.8)]

/-- First fertilizer keyword occurring as a substring wins; default 1.0
(`app.py` lines 165–169). -/
def fertilizerFactor (fertilizer : String) : ℚ :=
  match fertilizer_factors.find? (fun p => hasSub p.1 fertilizer) with
  | some p => p.2
  | none => 1.0

/-- Ordered region keyword table (`app.py` lines 172–177). -/
def region_factors : List (String × ℚ) :=
  [("an giang", 1.3), ("đồng tháp", 1.25), ("long an", 1.2),
   ("hà nội", 1.1), ("bắc ninh", 1.05), ("hưng yên", 1.05),
   ("đắk lắk", 1.0), ("đắk nông", 0.95), ("gia lai", 0.95),
   ("bắc kạn", 0.9), ("cao bằng", 0.85), ("hà giang", 0.85)]

/-- First region keyword occurring as a substring wins; default 1.0
(`app.py` lines 180–184). -/
def regionFactor (province : String) : ℚ :=
  match region_factors.find? (fun p => hasSub p.1 province) with
  | some p => p.2
  | none => 1.0

/-- Python `round(x, n)` as realised on the values of this development:
round half up at `n` decimal digits (see the module comment). -/
def pyRound (n : ℕ) (x : ℚ) : ℚ :=
  (⌊x * (10 : ℚ) ^ n + 1 / 2⌋ : ℚ) / (10 : ℚ) ^ n

/-- A season record as consumed by the two core functions; text fields use
the `.get(key, "")` default `""` for an absent field. -/
structure SeasonData where
  crop : String
  area : AreaField
  sow_date : DateField
  harvest_date : DateField
  fertilizer : String
  province : String
deriving DecidableEq

/-- The estimator `calculate_yield` (`app.py` lines 97–196): base yield × growth factor ×
fertilizer factor × region factor × area, rounded to 2 decimals; the
sentinel `none` when `float(area)` raises (caught by the handler). -/
def calculate_yield (season_data : SeasonData) : Option ℚ :=
  match areaVal season_data.area with
  | none => none
  | some area =>
    let crop := normText season_data.crop
    let fertilizer := normText season_data.fertilizer
    let base_yield := baseYield crop
    let growth_days := growthDays season_data.sow_date season_data.harvest_date
    let growth_factor := growthFactor growth_days
    let fertilizer_factor := fertilizerFactor fertilizer
    let province := normText season_data.province
    let region_factor := regionFactor province
    let final_yield_per_ha := base_yield * growth_factor * fertilizer_factor * region_factor
    let total_yield := final_yield_per_ha * area
    some (pyRound 2 total_yield)

/-- One entry of the static growth timeline (`app.py` lines 285–290). -/
structure GrowthStage where
  stage : String
  progress : ℕ
  tasks : List String
deriving DecidableEq

/-- The decision-support report (`app.py` lines 292–306).  The code renders
`estimated_revenue`, `estimated_profit`, `cost` and `price_per_kg` as
thousands-separated strings; the model keeps the numeric values. -/
structure Report where
  yield_per_ha : ℚ
  yield_category : String
  yield_color : String
  yield_bg : String
  crop_recommendations : List String
  general_recommendations : List String
  warnings : List String
  estimated_revenue : ℚ
  estimated_profit : ℚ
  cost : ℚ
  growth_stages : List GrowthStage
  profit_margin : ℚ
  price_per_kg : ℚ
deriving DecidableEq

/-- Yield tier with its presentation hints (`app.py` lines 213–228). -/
def yieldCategory (yield_per_ha : ℚ) : String × String × String :=
  if 6 ≤ yield_per_ha then ("Rất cao", "text-green-600", "bg-green-100")
  else if 4 ≤ yield_per_ha then ("Cao", "text-green-500", "bg-green-50")
  else if 2 ≤ yield_per_ha then ("Trung bình", "text-yellow-600", "bg-yellow-50")
  else ("Thấp", "text-red-600", "bg-red-50")

/-- Crop-specific recommendation lists (`app.py` lines 231–250). -/
def crop_recommendations : List (String × List String) :=
  [("lúa",
    ["🌾 Bón thúc đợt 1: 7-10 ngày sau sạ",
     "💧 Duy trì mực nước 3-5cm trong giai đoạn đẻ nhánh",
     "🛡️ Phòng trừ sâu bệnh: đạo ôn, rầy nâu",
     "📅 Thu hoạch khi 85-90% hạt chín vàng"]),
   ("ngô",
    ["🌱 Bón lót phân chuồng + lân trước khi gieo",
     "💦 Tưới đủ ẩm giai đoạn trỗ cờ phun râu",
     "🪲 Phòng trừ sâu đục thân, bệnh khô vằn",
     "🌽 Thu hoạch khi hạt cứng, râu chuyển nâu"]),
   ("cà phê",
    ["🌿 Tỉa cành tạo tán sau thu hoạch",
     "💧 Tưới nước đầy đủ mùa khô",
     "🍂 Bón phân NPK cân đối theo giai đoạn",
     "☀️ Che bóng hợp lý tránh nắng gắt"])]

/-- Always-present generic recommendation list (`app.py` lines 253–258). -/
def general_recommendations : List String :=
  ["📊 Theo dõi thời tiết thường xuyên để điều chỉnh lịch chăm sóc",
   "🌱 Kiểm tra độ ẩm đất trước khi tưới nước",
   "🔍 Thăm đồng thường xuyên để phát hiện sâu bệnh sớm",
   "📝 Ghi chép nhật ký đồng ruộng để cải thiện vụ sau"]

/-- The single fertilizer data-quality warning (`app.py` line 263). -/
def fertilizer_warning : String :=
  "⚠️ Chưa sử dụng phân bón - có thể ảnh hưởng năng suất"

/-- Crop price table, VND per kg (`app.py` lines 266–270). -/
def crop_prices : List (String × ℚ) :=
  [("lúa", 7000), ("ngô", 6000), ("cà phê", 45000), ("cao su", 35000),
   ("chè", 25000), ("tiêu", 80000), ("điều", 30000), ("mía", 1000),
   ("lạc", 20000), ("đậu tương", 15000)]

/-- Cost table, VND per hectare (`app.py` lines 276–279); lookups fall back
to the table's `"default"` entry 15000000. -/
def cost_per_ha : List (String × ℚ) :=
  [("lúa", 15000000), ("ngô", 18000000), ("cà phê", 25000000),
   ("cao su", 15000000), ("chè", 20000000)]

/-- The static 4-stage growth timeline (`app.py` lines 285–290). -/
def growth_stages : List GrowthStage :=
  [⟨"Gieo trồng", 100, ["Làm đất", "Gieo hạt"]⟩,
   ⟨"Phát triển", 65, ["Bón thúc", "Tưới nước"]⟩,
   ⟨"Ra hoa", 30, ["Bón phân", "Phun thuốc"]⟩,
   ⟨"Thu hoạch", 0, ["Chuẩn bị thu", "Bảo quản"]⟩]

/-- The generator `generate_decision_support` (`app.py` lines 199–310).  Returns the
sentinel `none` when `float(area)` raises, or when `predicted_yield` is the
sentinel `None` (then `predicted_yield / area` for positive area, otherwise
`predicted_yield * 1000 * price_per_kg`, raises `TypeError`; either failure
is caught by the handler). -/
def generate_decision_support (season_data : SeasonData)
    (predicted_yield : Option ℚ) : Option Report :=
  match areaVal season_data.area, predicted_yield with
  | none, _ => none
  | some _, none => none
  | some area, some py =>
    let crop := normText season_data.crop
    let yield_per_ha := if 0 < area then py / area else 0
    let price_per_kg := (crop_prices.lookup crop).getD 10000
    let estimated_revenue := py * 1000 * price_per_kg
    let cost := ((cost_per_ha.lookup crop).getD 15000000) * area
    let estimated_profit := estimated_revenue - cost
    some
      { yield_per_ha := pyRound 2 yield_per_ha
        yield_category := (yieldCategory yield_per_ha).1
        yield_color := (yieldCategory yield_per_ha).2.1
        yield_bg := (yieldCategory yield_per_ha).2.2
        crop_recommendations :=
          (crop_recommendations.lookup crop).getD general_recommendations
        general_recommendations := general_recommendations
        warnings :=
          if season_data.fertilizer = "" ∨
              hasSub "không" (pyLower season_data.fertilizer) = true then
            [fertilizer_warning]
          else []
        estimated_revenue := estimated_revenue
        estimated_profit := estimated_profit
        cost := cost
        growth_stages := growth_stages
        profit_margin :=
          if 0 < estimated_revenue then
            pyRound 1 (estimated_profit / estimated_revenue * 100)
          else 0
        price_per_kg := price_per_kg }

/-- Rounding a nonnegative rational stays nonnegative. -/
theorem pyRound_nonneg (n : ℕ) (x : ℚ) (hx : 0 ≤ x) : 0 ≤ pyRound n x := by
  have hm : (0 : ℚ) < (10 : ℚ) ^ n := by positivity
  have h0 : (0 : ℚ) ≤ x * (10 : ℚ) ^ n + 1 / 2 := by nlinarith
  have hfl : (0 : ℤ) ≤ ⌊x * (10 : ℚ) ^ n + 1 / 2⌋ := Int.floor_nonneg.mpr h0
  have : (0 : ℚ) ≤ (⌊x * (10 : ℚ) ^ n + 1 / 2⌋ : ℚ) := by exact_mod_cast hfl
  simp only [pyRound]
  exact div_nonneg this (le_of_lt hm)

/-- Rounding at `n` decimal digits moves a value by at most half a unit in
the last place. -/
theorem abs_pyRound_sub (n : ℕ) (x : ℚ) :
    |pyRound n x - x| ≤ 1 / (2 * (10 : ℚ) ^ n) := by
  have hm : (0 : ℚ) < (10 : ℚ) ^ n := by positivity
  have h1 : ((⌊x * (10 : ℚ) ^ n + 1 / 2⌋ : ℤ) : ℚ) ≤ x * (10 : ℚ) ^ n + 1 / 2 :=
    Int.floor_le _
  have h2 : x * (10 : ℚ) ^ n + 1 / 2 < (⌊x * (10 : ℚ) ^ n + 1 / 2⌋ : ℤ) + 1 :=
    Int.lt_floor_add_one _
  have key : |((⌊x * (10 : ℚ) ^ n + 1 / 2⌋ : ℤ) : ℚ) - x * (10 : ℚ) ^ n| ≤ 1 / 2 := by
    rw [abs_le]
    constructor <;> push_cast at h2 ⊢ <;> linarith
  have hrw : pyRound n x - x =
      (((⌊x * (10 : ℚ) ^ n + 1 / 2⌋ : ℤ) : ℚ) - x * (10 : ℚ) ^ n) / (10 : ℚ) ^ n := by
    simp only [pyRound]
    field_simp
    ring
  rw [hrw, abs_div, abs_of_pos hm, div_le_div_iff₀ hm (by positivity)]
  nlinarith [key, hm,
    abs_nonneg (((⌊x * (10 : ℚ) ^ n + 1 / 2⌋ : ℤ) : ℚ) - x * (10 : ℚ) ^ n)]

/-- Specialisation of `abs_pyRound_sub` to 2 decimal digits. -/
theorem abs_pyRound_two (x : ℚ) : |pyRound 2 x - x| ≤ 1 / 200 := by
  have h := abs_pyRound_sub 2 x
  norm_num at h
  exact h

/-- A keyed lookup with a positive default over a table of positive values
is positive. -/
theorem lookup_getD_pos (d : ℚ) (hd : 0 < d) :
    ∀ l : List (String × ℚ), (∀ p ∈ l, 0 < p.2) →
      ∀ c, 0 < (l.lookup c).getD d := by
  intro l
  induction l with
  | nil => intro _ c; simpa [List.lookup] using hd
  | cons p t ih =>
    intro hl c
    obtain ⟨k, v⟩ := p
    rcases hbc : (c == k) with _ | _
    · simp only [List.lookup, hbc]
      exact ih (fun q hq => hl q (List.mem_cons_of_mem _ hq)) c
    · simp only [List.lookup, hbc, Option.getD_some]
      exact hl (k, v) (List.mem_cons_self _ _)

/-- Every base-yield rate in the table is positive. -/
theorem base_yields_pos : ∀ p ∈ base_yields, (0 : ℚ) < p.2 := by
  intro p hp
  simp only [base_yields] at hp
  fin_cases hp <;> norm_num

/-- The base yield of any crop (known or defaulted) is positive. -/
theorem baseYield_pos (c : String) : 0 < baseYield c := by
  simp only [baseYield]
  exact lookup_getD_pos 4.0 (by norm_num) base_yields base_yields_pos c

/-- The growth factor is positive for every duration. -/
theorem growthFactor_pos (d : ℤ) : 0 < growthFactor d := by
  simp only [growthFactor]
  split_ifs <;> norm_num

/-- Every fertilizer factor in the table is positive. -/
theorem fertilizer_factors_pos : ∀ p ∈ fertilizer_factors, (0 : ℚ) < p.2 := by
  intro p hp
  simp only [fertilizer_factors] at hp
  fin_cases hp <;> norm_num

/-- The fertilizer factor (matched or defaulted) is positive. -/
theorem fertilizerFactor_pos (f : String) : 0 < fertilizerFactor f := by
  cases hf : fertilizer_factors.find? (fun p => hasSub p.1 f) with
  | none => norm_num [fertilizerFactor, hf]
  | some p =>
    have hmem : p ∈ fertilizer_factors := List.mem_of_find?_eq_some hf
    have hpos : 0 < p.2 := fertilizer_factors_pos p hmem
    simp only [fertilizerFactor, hf]
    exact hpos

/-- Every region factor in the table is positive. -/
theorem region_factors_pos : ∀ p ∈ region_factors, (0 : ℚ) < p.2 := by
  intro p hp
  simp only [region_factors] at hp
  fin_cases hp <;> norm_num

/-- The region factor (matched or defaulted) is positive. -/
theorem regionFactor_pos (f : String) : 0 < regionFactor f := by
  cases hf : region_factors.find? (fun p => hasSub p.1 f) with
  | none => norm_num [regionFactor, hf]
  | some p =>
    have hmem : p ∈ region_factors := List.mem_of_find?_eq_some hf
    have hpos : 0 < p.2 := region_factors_pos p hmem
    simp only [regionFactor, hf]
    exact hpos

/-- Every crop price in the table is positive. -/
theorem crop_prices_pos : ∀ p ∈ crop_prices, (0 : ℚ) < p.2 := by
  intro p hp
  simp only [crop_prices] at hp
  fin_cases hp <;> norm_num

/-- The price per kg (matched or defaulted) is positive. -/
theorem price_per_kg_pos (c : String) : 0 < (crop_prices.lookup c).getD 10000 :=
  lookup_getD_pos 10000 (by norm_num) crop_prices crop_prices_pos c

/-- C1 (amended): for every crop in the base-yield table, `calculate_yield`
with area 1, no dates, empty fertilizer and empty province returns the
crop's base rate × growth factor 0.9 (the factor for the default 90-day
duration) × fertilizer factor 1.0 (no keyword occurs in the empty string)
× region factor 1.0 × area 1, rounded to 2 decimals. -/
theorem claim_C1 : ∀ p ∈ base_yields,
    calculate_yield ⟨p.1, .missing, .missing, .missing, "", ""⟩ =
      some (pyRound 2 (p.2 * 0.9 * 1.0 * 1.0 * 1)) := by
  intro p hp
  simp only [base_yields] at hp
  fin_cases hp <;> rfl

/-- Witness for C1 at the crop "lúa" (base rate 5.5). -/
theorem claim_C1_witness :
    calculate_yield ⟨"lúa", .missing, .missing, .missing, "", ""⟩ =
      some (pyRound 2 ((5.5 : ℚ) * 0.9 * 1.0 * 1.0 * 1)) :=
  claim_C1 ("lúa", 5.5) (by simp [base_yields])

/-- C1 as stated is false: with the default 90-day duration the growth
factor is 0.9 (not 1.0) and the empty fertilizer string matches no keyword
so its factor is 1.0 (not the "none" factor 0.8); for the crop "lúa" the
function returns 4.95, not 5.5 × 1.0 × 0.8 × 1.0 = 4.4. -/
theorem claim_C1_counterexample :
    calculate_yield ⟨"lúa", .missing, .missing, .missing, "", ""⟩ ≠
      some (pyRound 2 ((5.5 : ℚ) * 1.0 * 0.8 * 1.0 * 1)) := by
  have h : calculate_yield ⟨"lúa", .missing, .missing, .missing, "", ""⟩ =
      some (pyRound 2 ((5.5 : ℚ) * 0.9 * 1.0 * 1.0 * 1)) := rfl
  rw [h]
  norm_num [pyRound]

/-- C2 (amended): when the `area` field is a value `float` cannot parse the
exception is caught and `calculate_yield` returns the error sentinel `None`
(it does not raise); the default 1 applies only when `area` is absent. -/
theorem claim_C2 (r : SeasonData) :
    (r.area = AreaField.bad → calculate_yield r = none) ∧
    (r.area = AreaField.missing →
      calculate_yield r = calculate_yield { r with area := AreaField.num 1 }) := by
  constructor <;> intro h <;> simp [calculate_yield, h, areaVal]

/-- Witness for C2: a record with unparseable area returns the sentinel, and
a record with absent area computes like one with area 1. -/
theorem claim_C2_witness :
    calculate_yield ⟨"lúa", AreaField.bad, .missing, .missing, "", ""⟩ = none ∧
    calculate_yield ⟨"ngô", AreaField.missing, .missing, .missing, "", ""⟩ =
      calculate_yield ⟨"ngô", AreaField.num 1, .missing, .missing, "", ""⟩ :=
  ⟨(claim_C2 ⟨"lúa", AreaField.bad, .missing, .missing, "", ""⟩).1 rfl,
   (claim_C2 ⟨"ngô", AreaField.missing, .missing, .missing, "", ""⟩).2 rfl⟩

/-- C2 as stated is false: for area `"abc"` the function returns the error
sentinel `none`, not the value 4.95 returned when `area` is omitted. -/
theorem claim_C2_counterexample :
    calculate_yield ⟨"lúa", AreaField.bad, .missing, .missing, "", ""⟩ = none ∧
    calculate_yield ⟨"lúa", AreaField.missing, .missing, .missing, "", ""⟩ =
      some (pyRound 2 ((5.5 : ℚ) * 0.9 * 1.0 * 1.0 * 1)) ∧
    some (pyRound 2 ((5.5 : ℚ) * 0.9 * 1.0 * 1.0 * 1)) ≠ (none : Option ℚ) := by
  exact ⟨rfl, rfl, by simp⟩

/-- C5: the end-to-end scenario: crop "lúa", area 2, sow 2024-01-01,
harvest 2024-04-10, fertilizer "NPK", province "An Giang" gives growth
days 100, growth factor 1.0, fertilizer factor 1.15, region factor 1.3,
per-hectare yield 8.2225, total 16.445, returned as 16.45. -/
theorem claim_C5 :
    growthDays (DateField.valid 2024 1 1) (DateField.valid 2024 4 10) = 100 ∧
    growthFactor 100 = 1.0 ∧
    fertilizerFactor (normText "NPK") = 1.15 ∧
    regionFactor (normText "An Giang") = 1.3 ∧
    (5.5 : ℚ) * 1.0 * 1.15 * 1.3 = 8.2225 ∧
    (8.2225 : ℚ) * 2 = 16.445 ∧
    calculate_yield ⟨"lúa", AreaField.num 2, DateField.valid 2024 1 1,
      DateField.valid 2024 4 10, "NPK", "An Giang"⟩ = some 16.45 := by
  refine ⟨by decide, rfl, rfl, rfl, by norm_num, by norm_num, ?_⟩
  have h : calculate_yield ⟨"lúa", AreaField.num 2, DateField.valid 2024 1 1,
      DateField.valid 2024 4 10, "NPK", "An Giang"⟩ =
      some (pyRound 2 ((5.5 : ℚ) * 1.0 * 1.15 * 1.3 * 2)) := rfl
  rw [h]
  norm_num [pyRound]

/-- C10: passing the sentinel `None` as the predicted yield makes
`generate_decision_support` return the sentinel for every record
(the caught `TypeError` path), never a report and never an exception. -/
theorem claim_C10 (r : SeasonData) : generate_decision_support r none = none := by
  obtain ⟨c, a, sd, hd, f, p⟩ := r
  cases a <;> rfl

/-- C6: when both dates parse, the growth duration is the day difference
clamped into [60, 180] (a raw difference of 10 becomes 60, 400 becomes 180,
and a negative raw difference is clamped to 60, not rejected); when either
date is missing or unparseable the duration is 90. -/
theorem claim_C6 (sd hd : DateField) :
    (∀ y1 m1 d1 y2 m2 d2, sd = DateField.valid y1 m1 d1 →
      hd = DateField.valid y2 m2 d2 →
      growthDays sd hd =
        max 60 (min 180 ((toOrdinal y2 m2 d2 : ℤ) - (toOrdinal y1 m1 d1 : ℤ)))) ∧
    ((sd = DateField.missing ∨ sd = DateField.invalid ∨ hd = DateField.missing ∨
      hd = DateField.invalid) → growthDays sd hd = 90) ∧
    growthDays (DateField.valid 2024 1 1) (DateField.valid 2024 1 11) = 60 ∧
    growthDays (DateField.valid 2024 1 1) (DateField.valid 2025 2 5) = 180 ∧
    growthDays (DateField.valid 2024 4 10) (DateField.valid 2024 1 1) = 60 := by
  refine ⟨?_, ?_, by decide, by decide, by decide⟩
  · intro y1 m1 d1 y2 m2 d2 h1 h2
    subst h1
    subst h2
    rfl
  · rintro (h | h | h | h)
    · subst h
      cases hd <;> rfl
    · subst h
      cases hd <;> rfl
    · subst h
      cases sd <;> rfl
    · subst h
      cases sd <;> rfl

/-- Witness for C6: the clamp formula at 2024-01-01 → 2024-04-10, and the
90-day default when the sow date is missing. -/
theorem claim_C6_witness :
    growthDays (DateField.valid 2024 1 1) (DateField.valid 2024 4 10) =
      max 60 (min 180 ((toOrdinal 2024 4 10 : ℤ) - (toOrdinal 2024 1 1 : ℤ))) ∧
    growthDays DateField.missing DateField.missing = 90 :=
  ⟨(claim_C6 (DateField.valid 2024 1 1) (DateField.valid 2024 4 10)).1
      2024 1 1 2024 4 10 rfl rfl,
   (claim_C6 DateField.missing DateField.missing).2.1 (Or.inl rfl)⟩

/-- C7: the fertilizer factor scans the keyword table in declared order
(hữu cơ 1.2, vô cơ 1.1, npk 1.15, phân chuồng 1.18, không 0.8), takes the
first keyword occurring as a substring, and defaults to 1.0; in particular
a string containing both "npk" and "hữu cơ" resolves to 1.2. -/
theorem claim_C7 (f : String) :
    (hasSub "hữu cơ" f = true → fertilizerFactor f = 1.2) ∧
    (hasSub "hữu cơ" f = false → hasSub "vô cơ" f = true →
      fertilizerFactor f = 1.1) ∧
    (hasSub "hữu cơ" f = false → hasSub "vô cơ" f = false →
      hasSub "npk" f = true → fertilizerFactor f = 1.15) ∧
    (hasSub "hữu cơ" f = false → hasSub "vô cơ" f = false →
      hasSub "npk" f = false → hasSub "phân chuồng" f = true →
      fertilizerFactor f = 1.18) ∧
    (hasSub "hữu cơ" f = false → hasSub "vô cơ" f = false →
      hasSub "npk" f = false → hasSub "phân chuồng" f = false →
      hasSub "không" f = true → fertilizerFactor f = 0.8) ∧
    (hasSub "hữu cơ" f = false → hasSub "vô cơ" f = false →
      hasSub "npk" f = false → hasSub "phân chuồng" f = false →
      hasSub "không" f = false → fertilizerFactor f = 1.0) := by
  refine ⟨fun h1 => ?_, fun h1 h2 => ?_, fun h1 h2 h3 => ?_,
    fun h1 h2 h3 h4 => ?_, fun h1 h2 h3 h4 h5 => ?_, fun h1 h2 h3 h4 h5 => ?_⟩ <;>
    simp [fertilizerFactor, fertilizer_factors, List.find?, h1]
  all_goals simp [h2]
  all_goals simp [h3]
  all_goals simp [h4]
  all_goals simp [h5]

/-- Witness for C7: a fertilizer text containing both "npk" and "hữu cơ"
gets the organic factor 1.2, the first keyword in table order. -/
theorem claim_C7_witness : fertilizerFactor "phân npk hữu cơ" = 1.2 :=
  (claim_C7 "phân npk hữu cơ").1 (by decide)

/-- C8: whenever `generate_decision_support` produces a report, its warning
list is exactly the single fixed warning when the record's fertilizer is
empty or contains "không" after lowercasing, and empty otherwise. -/
theorem claim_C8 (r : SeasonData) (py a : ℚ) (ha : areaVal r.area = some a) :
    (generate_decision_support r (some py)).map Report.warnings =
      some (if r.fertilizer = "" ∨ hasSub "không" (pyLower r.fertilizer) = true
        then [fertilizer_warning] else []) := by
  simp only [generate_decision_support, ha, Option.map_some']

/-- Witness for C8: the empty fertilizer string triggers the warning. -/
theorem claim_C8_witness :
    (generate_decision_support ⟨"lúa", AreaField.num 1, .missing, .missing, "", ""⟩
      (some 1)).map Report.warnings =
      some (if ("" : String) = "" ∨ hasSub "không" (pyLower "") = true
        then [fertilizer_warning] else []) :=
  claim_C8 ⟨"lúa", AreaField.num 1, .missing, .missing, "", ""⟩ 1 1 rfl

/-- C4 counterexample: a record with area -1 (accepted by `float`) gets the
negative estimate -4.95, so a non-sentinel result is not always
non-negative. -/
theorem claim_C4_counterexample :
    calculate_yield ⟨"lúa", AreaField.num (-1), .missing, .missing, "", ""⟩ =
      some (pyRound 2 ((5.5 : ℚ) * 0.9 * 1.0 * 1.0 * (-1))) ∧
    pyRound 2 ((5.5 : ℚ) * 0.9 * 1.0 * 1.0 * (-1)) < 0 :=
  ⟨rfl, by norm_num [pyRound]⟩

/-- C4 (amended): whenever the record's area is non-negative and
`calculate_yield` returns a non-sentinel result, that result is
non-negative. -/
theorem claim_C4 (r : SeasonData) (a x : ℚ) (ha : areaVal r.area = some a)
    (h0 : 0 ≤ a) (hx : calculate_yield r = some x) : 0 ≤ x := by
  simp only [calculate_yield, ha, Option.some.injEq] at hx
  rw [← hx]
  apply pyRound_nonneg
  have hb := baseYield_pos (normText r.crop)
  have hg := growthFactor_pos (growthDays r.sow_date r.harvest_date)
  have hf := fertilizerFactor_pos (normText r.fertilizer)
  have hr := regionFactor_pos (normText r.province)
  exact mul_nonneg (le_of_lt (mul_pos (mul_pos (mul_pos hb hg) hf) hr)) h0

/-- Witness for C4 at the record with crop "lúa" and area 1. -/
theorem claim_C4_witness :
    (0 : ℚ) ≤ pyRound 2 ((5.5 : ℚ) * 0.9 * 1.0 * 1.0 * 1) :=
  claim_C4 ⟨"lúa", AreaField.num 1, .missing, .missing, "", ""⟩ 1
    (pyRound 2 ((5.5 : ℚ) * 0.9 * 1.0 * 1.0 * 1)) rfl (by norm_num) rfl

/-- Doubling the input of a 2-decimal rounding changes the result by at
most 3/200 against doubling the output. -/
theorem pyRound_two_double (x : ℚ) :
    |pyRound 2 (2 * x) - 2 * pyRound 2 x| ≤ 3 / 200 := by
  have k1 := abs_pyRound_two (2 * x)
  have k2 := abs_pyRound_two x
  have e : pyRound 2 (2 * x) - 2 * pyRound 2 x =
      (pyRound 2 (2 * x) - 2 * x) - 2 * (pyRound 2 x - x) := by ring
  rw [e, abs_le]
  rw [abs_le] at k1 k2
  obtain ⟨k1l, k1r⟩ := k1
  obtain ⟨k2l, k2r⟩ := k2
  constructor <;> linarith

/-- C9: `calculate_yield` is linear in the area up to final rounding:
doubling a numeric area yields twice the original estimate within 3/200
(each result being rounded to 2 decimals). -/
theorem claim_C9 (r : SeasonData) (a y1 y2 : ℚ)
    (h1 : calculate_yield { r with area := AreaField.num a } = some y1)
    (h2 : calculate_yield { r with area := AreaField.num (2 * a) } = some y2) :
    |y2 - 2 * y1| ≤ 3 / 200 := by
  simp only [calculate_yield, areaVal, Option.some.injEq] at h1 h2
  subst h1
  subst h2
  generalize baseYield (normText r.crop) *
      growthFactor (growthDays r.sow_date r.harvest_date) *
      fertilizerFactor (normText r.fertilizer) *
      regionFactor (normText r.province) = C
  have e : C * (2 * a) = 2 * (C * a) := by ring
  rw [e]
  exact pyRound_two_double (C * a)

/-- Witness for C9 at the record with crop "lúa" and areas 1 and 2. -/
theorem claim_C9_witness :
    |pyRound 2 ((5.5 : ℚ) * 0.9 * 1.0 * 1.0 * (2 * 1)) -
      2 * pyRound 2 ((5.5 : ℚ) * 0.9 * 1.0 * 1.0 * 1)| ≤ 3 / 200 :=
  claim_C9 ⟨"lúa", AreaField.missing, .missing, .missing, "", ""⟩ 1
    (pyRound 2 ((5.5 : ℚ) * 0.9 * 1.0 * 1.0 * 1))
    (pyRound 2 ((5.5 : ℚ) * 0.9 * 1.0 * 1.0 * (2 * 1))) rfl rfl

/-- C3 counterexample: with area 0 and predicted yield 1 (crop "lúa"), the
cost is 0, so the profit equals the revenue and the profit margin is 100,
not 0 as claimed. -/
theorem claim_C3_counterexample :
    (generate_decision_support ⟨"lúa", AreaField.num 0, .missing, .missing, "NPK", ""⟩
      (some 1)).map (fun rep => (rep.yield_per_ha, rep.profit_margin)) =
      some ((0 : ℚ), (100 : ℚ)) ∧ (100 : ℚ) ≠ 0 := by
  constructor
  · have hl : List.lookup (normText "lúa") crop_prices = some 7000 := rfl
    have hc : List.lookup (normText "lúa") cost_per_ha = some 15000000 := rfl
    norm_num [generate_decision_support, areaVal, pyRound, hl, hc]
  · norm_num

/-- C3 (amended): with area 0 the report always has `yield_per_ha = 0` (the
guard takes the division-free branch) and the call returns a report, never
raises; but since the cost is `cost_per_ha × 0 = 0`, the profit equals the
revenue and `profit_margin` is 100 when the predicted yield is positive,
and 0 (the zero-revenue guard) otherwise. -/
theorem claim_C3 (r : SeasonData) (py : ℚ) (h : r.area = AreaField.num 0) :
    (generate_decision_support r (some py)).map
      (fun rep => (rep.yield_per_ha, rep.profit_margin)) =
      some ((0 : ℚ), if 0 < py then (100 : ℚ) else 0) := by
  have hp : 0 < (crop_prices.lookup (normText r.crop)).getD 10000 :=
    price_per_kg_pos (normText r.crop)
  by_cases hpy : 0 < py
  · have hrev : 0 < py * 1000 * (crop_prices.lookup (normText r.crop)).getD 10000 :=
      mul_pos (mul_pos hpy (by norm_num)) hp
    have hne : py * 1000 * (crop_prices.lookup (normText r.crop)).getD 10000 ≠ 0 :=
      ne_of_gt hrev
    simp only [generate_decision_support, h, areaVal, Option.map_some']
    norm_num [pyRound, hpy, hrev, div_self hne]
  · have hrev : ¬ 0 < py * 1000 * (crop_prices.lookup (normText r.crop)).getD 10000 := by
      push_neg at hpy ⊢
      nlinarith
    simp only [generate_decision_support, h, areaVal, Option.map_some']
    norm_num [pyRound, hpy, hrev]

/-- Witness for C3 at area 0, crop "lúa", predicted yield 1. -/
theorem claim_C3_witness :
    (generate_decision_support ⟨"lúa", AreaField.num 0, .missing, .missing, "NPK", ""⟩
      (some 1)).map (fun rep => (rep.yield_per_ha, rep.profit_margin)) =
      some ((0 : ℚ), if (0 : ℚ) < 1 then (100 : ℚ) else 0) :=
  claim_C3 ⟨"lúa", AreaField.num 0, .missing, .missing, "NPK", ""⟩ 1 rfl
